import Mathlib

/-!
Verification of the KPI / goal engine of `src/streamlit_app.py`
(recruitment-performance dashboard).

The numeric functions of the source operate on Python numbers; activity
counters are integers, so all arithmetic is embedded over `ℚ` with exact
rational semantics.  Python's `round(x, n)` rounds half to even
(banker's rounding); `round_half_to_even` / `round_py` model it exactly
over `ℚ`.  DataFrames are embedded as lists of records plus boolean
column-presence flags (pandas column membership checks such as
`'Semana' in df.columns` become those flags).
-/

namespace Dashboard

/-- Python's `round` on an exact rational: nearest integer, ties to even. -/
def round_half_to_even (q : ℚ) : ℤ :=
  if q - ⌊q⌋ < 1/2 then ⌊q⌋
  else if 1/2 < q - ⌊q⌋ then ⌊q⌋ + 1
  else if ⌊q⌋ % 2 = 0 then ⌊q⌋ else ⌊q⌋ + 1

/-- Python's `round(q, ndigits)` over exact rationals. -/
def round_py (q : ℚ) (ndigits : ℕ) : ℚ :=
  (round_half_to_even (q * 10 ^ ndigits) : ℚ) / 10 ^ ndigits

/-- `calcular_efectividad(firmados, meta)` — src/streamlit_app.py:101. -/
def calcular_efectividad (firmados meta : ℚ) : ℚ :=
  if meta = 0 then 0
  else round_py (firmados / meta * 100) 1

/-- `calcular_productividad(firmados, contactos)` — src/streamlit_app.py:107. -/
def calcular_productividad (firmados contactos : ℚ) : ℚ :=
  if contactos = 0 then 0
  else round_py (firmados / contactos * 100) 1

/-- `calcular_calidad(firmados, entrevistas)` — src/streamlit_app.py:113. -/
def calcular_calidad (firmados entrevistas : ℚ) : ℚ :=
  if entrevistas = 0 then 0
  else round_py (firmados / entrevistas * 100) 1

/-- `proyeccion_semanal(acumulado, dias_transcurridos, dias_totales)` —
src/streamlit_app.py:119. -/
def proyeccion_semanal (acumulado dias_transcurridos dias_totales : ℚ) : ℚ :=
  if dias_transcurridos = 0 then 0
  else round_py (acumulado / dias_transcurridos * dias_totales) 0

end Dashboard

namespace Dashboard

/-- C1: with denominator `0`, each of the three ratio KPI functions returns
exactly `0` for every non-negative numerator.  (The Lean embeddings are total
functions, so "never raises an exception" is witnessed by totality.) -/
theorem ratio_kpis_zero_denominator (n : ℚ) (_hn : 0 ≤ n) :
    calcular_efectividad n 0 = 0 ∧
    calcular_productividad n 0 = 0 ∧
    calcular_calidad n 0 = 0 := by
  refine ⟨?_, ?_, ?_⟩ <;> simp [calcular_efectividad, calcular_productividad, calcular_calidad]

/-- Witness for C1 at the concrete numerator `7`. -/
theorem ratio_kpis_zero_denominator_witness :
    calcular_efectividad 7 0 = 0 ∧
    calcular_productividad 7 0 = 0 ∧
    calcular_calidad 7 0 = 0 :=
  ratio_kpis_zero_denominator 7 (by norm_num)

/-- C2: with a non-zero denominator, each ratio KPI function returns
`round(numerator/denominator*100, 1)`; at numerator `10`, denominator `20`
all three return `50.0`. -/
theorem ratio_kpis_formula :
    (∀ n d : ℚ, 0 ≤ n → 0 ≤ d → d ≠ 0 →
      calcular_efectividad n d = round_py (n / d * 100) 1 ∧
      calcular_productividad n d = round_py (n / d * 100) 1 ∧
      calcular_calidad n d = round_py (n / d * 100) 1) ∧
    calcular_efectividad 10 20 = 50 ∧
    calcular_productividad 10 20 = 50 ∧
    calcular_calidad 10 20 = 50 := by
  constructor
  · intro n d _ _ hd
    refine ⟨?_, ?_, ?_⟩ <;>
      simp [calcular_efectividad, calcular_productividad, calcular_calidad, hd]
  · refine ⟨?_, ?_, ?_⟩ <;>
      norm_num [calcular_efectividad, calcular_productividad, calcular_calidad,
        round_py, round_half_to_even]

/-- Witness for C2: the general formula applied at `n = 10`, `d = 20`. -/
theorem ratio_kpis_formula_witness :
    calcular_efectividad 10 20 = round_py (10 / 20 * 100) 1 :=
  (ratio_kpis_formula.1 10 20 (by norm_num) (by norm_num) (by norm_num)).1

/-- C3: the projection returns `round(accumulated/elapsed*total, 0)` whenever
`elapsed ≠ 0` and `0` when `elapsed = 0`; at `(10, 2, 6)` it returns `30`. -/
theorem proyeccion_semanal_spec :
    (∀ a t : ℚ, proyeccion_semanal a 0 t = 0) ∧
    (∀ a e t : ℚ, e ≠ 0 →
      proyeccion_semanal a e t = round_py (a / e * t) 0) ∧
    proyeccion_semanal 10 2 6 = 30 := by
  refine ⟨?_, ?_, ?_⟩
  · intro a t; simp [proyeccion_semanal]
  · intro a e t he; simp [proyeccion_semanal, he]
  · norm_num [proyeccion_semanal, round_py, round_half_to_even]

/-- Witness for C3: the non-zero-elapsed branch applied at `(10, 2, 6)`. -/
theorem proyeccion_semanal_spec_witness :
    proyeccion_semanal 10 2 6 = round_py (10 / 2 * 6) 0 :=
  proyeccion_semanal_spec.2.1 10 2 6 (by norm_num)

end Dashboard

namespace Dashboard

/-- Counters pinned by business policy to a constant goal of `1`
(spec §4.3; the source's column names for "accepted" and "hired"). -/
def contadores_fijados : List String := ["Aceptados", "Firmaron"]

/-- Modelled from the spec: the rolling goal engine of spec §4.3 is absent
from `src/streamlit_app.py` (goals there come from the `metas_semanales`
table); this models the described transform — a trailing window of size 2
over one recruiter's period-ordered counter values, arithmetic mean, shifted
forward one period, undefined (fewer than 2 prior periods) resolved to `0`. -/
def rolling_mean2_shift1 (vs : List ℚ) : List ℚ :=
  (List.range vs.length).map fun i =>
    if 2 ≤ i then (vs.getD (i - 2) 0 + vs.getD (i - 1) 0) / 2 else 0

/-- Modelled from the spec: the derived goal series for one counter of one
recruiter — the rolling mean, with the pinned counters ("Aceptados",
"Firmaron") forcibly overwritten to the constant `1` regardless of history. -/
def meta_movil (counter : String) (vs : List ℚ) : List ℚ :=
  if counter ∈ contadores_fijados then List.replicate vs.length 1
  else rolling_mean2_shift1 vs

theorem length_rolling_mean2_shift1 (vs : List ℚ) :
    (rolling_mean2_shift1 vs).length = vs.length := by
  simp [rolling_mean2_shift1]

theorem length_meta_movil (counter : String) (vs : List ℚ) :
    (meta_movil counter vs).length = vs.length := by
  unfold meta_movil
  split
  · simp
  · exact length_rolling_mean2_shift1 vs

/-- C4: for a recruiter whose period-ordered values of one counter are `vs`,
the derived goal at period index `p` is `0` for the first two periods, the
mean of the values at `p-2` and `p-1` from the third period on — except for
the pinned counters "Aceptados" and "Firmaron", whose goal is the constant
`1` regardless of history. -/
theorem meta_movil_spec (counter : String) (vs : List ℚ) (p : ℕ)
    (hp : p < vs.length) :
    (counter ∉ contadores_fijados → p < 2 →
      (meta_movil counter vs).getD p 0 = 0) ∧
    (counter ∉ contadores_fijados → 2 ≤ p →
      (meta_movil counter vs).getD p 0 =
        (vs.getD (p - 2) 0 + vs.getD (p - 1) 0) / 2) ∧
    (counter ∈ contadores_fijados → (meta_movil counter vs).getD p 0 = 1) := by
  have hlen : p < (List.range vs.length).length := by simpa using hp
  refine ⟨?_, ?_, ?_⟩
  · intro hc hp2
    simp only [meta_movil, if_neg hc, rolling_mean2_shift1]
    rw [List.getD_eq_getElem _ _ (by simpa using hp), List.getElem_map,
      List.getElem_range]
    simp [Nat.not_le.mpr hp2]
  · intro hc hp2
    simp only [meta_movil, if_neg hc, rolling_mean2_shift1]
    rw [List.getD_eq_getElem _ _ (by simpa using hp), List.getElem_map,
      List.getElem_range]
    simp [hp2]
  · intro hc
    simp only [meta_movil, if_pos hc]
    rw [List.getD_eq_getElem _ _ (by simpa using hp)]
    simp

/-- Witness for C4: counter values `[2, 4, 6]`; at period index 2 the
non-pinned goal is `(2 + 4) / 2 = 3` and a pinned counter's goal is `1`. -/
theorem meta_movil_spec_witness :
    (meta_movil "Contactos" [2, 4, 6]).getD 2 0 = (2 + 4) / 2 ∧
    (meta_movil "Firmaron" [2, 4, 6]).getD 2 0 = 1 ∧
    (meta_movil "Contactos" [2, 4, 6]).getD 0 0 = 0 := by
  refine ⟨?_, ?_, ?_⟩
  · have h := (meta_movil_spec "Contactos" [2, 4, 6] 2 (by simp)).2.1
      (by decide) (by decide)
    simpa using h
  · exact (meta_movil_spec "Firmaron" [2, 4, 6] 2 (by simp)).2.2 (by decide)
  · exact (meta_movil_spec "Contactos" [2, 4, 6] 0 (by simp)).1 (by decide)
      (by decide)

/-- C8: the KPI and goal computations are pure and deterministic — equal
inputs give equal outputs, with no hidden state influencing the result
(in this embedding every computation is a function of its arguments only). -/
theorem kpi_engine_deterministic :
    ∀ (f₁ m₁ f₂ m₂ : ℚ) (a₁ e₁ t₁ a₂ e₂ t₂ : ℚ)
      (c₁ c₂ : String) (vs₁ vs₂ : List ℚ),
      (f₁ = f₂ → m₁ = m₂ →
        calcular_efectividad f₁ m₁ = calcular_efectividad f₂ m₂ ∧
        calcular_productividad f₁ m₁ = calcular_productividad f₂ m₂ ∧
        calcular_calidad f₁ m₁ = calcular_calidad f₂ m₂) ∧
      (a₁ = a₂ → e₁ = e₂ → t₁ = t₂ →
        proyeccion_semanal a₁ e₁ t₁ = proyeccion_semanal a₂ e₂ t₂) ∧
      (c₁ = c₂ → vs₁ = vs₂ → meta_movil c₁ vs₁ = meta_movil c₂ vs₂) := by
  intro f₁ m₁ f₂ m₂ a₁ e₁ t₁ a₂ e₂ t₂ c₁ c₂ vs₁ vs₂
  refine ⟨?_, ?_, ?_⟩
  · rintro rfl rfl; exact ⟨rfl, rfl, rfl⟩
  · rintro rfl rfl rfl; rfl
  · rintro rfl rfl; rfl

/-- Witness for C8: the determinism statement at concrete equal inputs. -/
theorem kpi_engine_deterministic_witness :
    calcular_efectividad 10 20 = calcular_efectividad 10 20 ∧
    calcular_productividad 10 20 = calcular_productividad 10 20 ∧
    calcular_calidad 10 20 = calcular_calidad 10 20 :=
  (kpi_engine_deterministic 10 20 10 20 1 2 3 1 2 3 "Firmaron" "Firmaron"
    [1] [1]).1 rfl rfl

end Dashboard

namespace Dashboard

/-- Gregorian leap-year test. -/
def isLeapYear (y : ℕ) : Bool :=
  y % 4 == 0 && (y % 100 != 0 || y % 400 == 0)

/-- Number of days strictly before January 1 of year `y` in the proleptic
Gregorian calendar (so the ordinal of Jan 1 of year `y` is this plus 1;
day ordinal 1 is 0001-01-01, as in Python's `date.toordinal`). -/
def daysBeforeYear (y : ℕ) : ℕ :=
  365 * (y - 1) + (y - 1) / 4 - (y - 1) / 100 + (y - 1) / 400

/-- Walk a year guess downward until it contains ordinal `n` (the initial
guess `n / 365 + 1` overshoots by a bounded amount). -/
def yearAdjust (n : ℕ) : ℕ → ℕ → ℕ
  | 0, y => y
  | fuel + 1, y => if n ≤ daysBeforeYear y then yearAdjust n fuel (y - 1) else y

/-- Year containing day ordinal `n`. -/
def yearOfOrdinal (n : ℕ) : ℕ :=
  yearAdjust n 8 (n / 365 + 1)

/-- Day of week of ordinal `n`: `0` = Monday (ordinal 1 is a Monday). -/
def weekdayOf (n : ℕ) : ℕ := (n - 1) % 7

/-- ISO-8601 calendar week of day ordinal `n` (the week number of the
Thursday of `n`'s Monday-based week), as computed by pandas
`Series.dt.isocalendar().week`. -/
def isoWeek (n : ℕ) : ℕ :=
  let th := n + 3 - weekdayOf n
  let y := yearOfOrdinal th
  (th - (daysBeforeYear y + 1)) / 7 + 1

/-- Days in month `m` of year `y`. -/
def daysInMonth (y m : ℕ) : ℕ :=
  if m = 2 then (if isLeapYear y then 29 else 28)
  else if m = 4 ∨ m = 6 ∨ m = 9 ∨ m = 11 then 30
  else 31

/-- Walk months forward, consuming days of the year, to find the month. -/
def monthWalk (y : ℕ) : ℕ → ℕ → ℕ → ℕ
  | 0, m, _ => m
  | fuel + 1, m, d =>
    if d ≤ daysInMonth y m then m
    else monthWalk y fuel (m + 1) (d - daysInMonth y m)

/-- `(year, month)` of day ordinal `n` — the key pandas
`Series.dt.to_period('M')` groups by. -/
def monthKey (n : ℕ) : ℕ × ℕ :=
  let y := yearOfOrdinal n
  (y, monthWalk y 11 1 (n - daysBeforeYear y))

/-- One row of a metrics DataFrame.  `fecha` is the day ordinal of the date
column (`Fecha`); `semana` is the value of the `Semana` column, meaningful
only when the table has that column; `datos` carries the remaining fields so
that distinct source rows stay distinct. -/
structure Registro where
  reclutador : String
  fecha : ℕ
  semana : ℕ
  datos : List (String × ℤ)
deriving DecidableEq

/-- A metrics DataFrame: its rows plus the column-presence flag the weekly
filter branches on (`'Semana' in df.columns`). -/
structure Tabla where
  hasSemana : Bool
  rows : List Registro
deriving DecidableEq

/-- The period selector handed to `filtrar_por_periodo`: the source's
`tipo` (`'diario'`/`'semanal'`/`'mensual'`) bundled with the selected
period value of that granularity. -/
inductive Periodo where
  | diario (fecha : ℕ)
  | semanal (semana : ℕ)
  | mensual (anio mes : ℕ)

/-- `filtrar_por_periodo(df, periodo_seleccionado, tipo)` —
src/streamlit_app.py:167: an empty DataFrame is returned unchanged;
daily matches `df['Fecha'].dt.date == periodo`; weekly matches the
`Semana` column when present, else the ISO week derived from `Fecha`;
monthly matches the year-month of the date column. -/
def filtrar_por_periodo (df : Tabla) (periodo : Periodo) : Tabla :=
  if df.rows.isEmpty then df
  else
    match periodo with
    | .diario fecha =>
        { df with rows := df.rows.filter fun r => r.fecha == fecha }
    | .semanal semana =>
        if df.hasSemana then
          { df with rows := df.rows.filter fun r => r.semana == semana }
        else
          { df with rows := df.rows.filter fun r => isoWeek r.fecha == semana }
    | .mensual anio mes =>
        { df with rows := df.rows.filter fun r => monthKey r.fecha == (anio, mes) }

theorem filtrar_diario_rows (df : Tabla) (fecha : ℕ) :
    (filtrar_por_periodo df (.diario fecha)).rows =
      df.rows.filter fun r => r.fecha == fecha := by
  unfold filtrar_por_periodo
  rcases h : df.rows with _ | ⟨a, l⟩ <;> simp [h]

theorem count_filter_registro (p : Registro → Bool) (r : Registro)
    (l : List Registro) :
    List.count r (l.filter p) = if p r then List.count r l else 0 := by
  induction l with
  | nil => simp
  | cons a l ih =>
    by_cases hpa : p a
    · rw [List.filter_cons_of_pos hpa]
      by_cases har : a = r
      · subst har
        simp [List.count_cons_self, ih, hpa]
      · rw [List.count_cons_of_ne (fun h => har h.symm),
          List.count_cons_of_ne (fun h => har h.symm), ih]
    · rw [List.filter_cons_of_neg hpa, ih]
      by_cases har : a = r
      · subst har
        simp [hpa]
      · rw [List.count_cons_of_ne (fun h => har h.symm)]

end Dashboard

namespace Dashboard

/-- C5: daily filtering returns exactly the rows whose date equals the given
date — membership is characterized by the match predicate, each row's
multiplicity is preserved when it matches and zero otherwise (no row dropped,
added or duplicated), and the result is empty when no row has that date. -/
theorem filtrar_diario_spec (df : Tabla) (fecha : ℕ) :
    (∀ r, r ∈ (filtrar_por_periodo df (.diario fecha)).rows ↔
        r ∈ df.rows ∧ r.fecha = fecha) ∧
    (∀ r, List.count r (filtrar_por_periodo df (.diario fecha)).rows =
        if r.fecha = fecha then List.count r df.rows else 0) ∧
    ((∀ r ∈ df.rows, r.fecha ≠ fecha) →
      (filtrar_por_periodo df (.diario fecha)).rows = []) := by
  refine ⟨?_, ?_, ?_⟩
  · intro r
    rw [filtrar_diario_rows, List.mem_filter]
    simp
  · intro r
    rw [filtrar_diario_rows, count_filter_registro]
    by_cases h : r.fecha = fecha <;> simp [h]
  · intro h
    rw [filtrar_diario_rows]
    refine List.eq_nil_iff_forall_not_mem.mpr fun r hr => ?_
    rw [List.mem_filter] at hr
    exact h r hr.1 (by simpa using hr.2)

/-- Witness for C5: a two-row table; filtering on the date of the first row
keeps exactly it, filtering on a date no row has yields the empty set. -/
theorem filtrar_diario_spec_witness :
    (filtrar_por_periodo
        ⟨false, [⟨"Ana", 739266, 0, []⟩, ⟨"Luis", 739267, 0, []⟩]⟩
        (.diario 739300)).rows = [] ∧
    (⟨"Ana", 739266, 0, []⟩ : Registro) ∈
      (filtrar_por_periodo
        ⟨false, [⟨"Ana", 739266, 0, []⟩, ⟨"Luis", 739267, 0, []⟩]⟩
        (.diario 739266)).rows := by
  constructor
  · exact (filtrar_diario_spec
      ⟨false, [⟨"Ana", 739266, 0, []⟩, ⟨"Luis", 739267, 0, []⟩]⟩
      739300).2.2 (by decide)
  · exact ((filtrar_diario_spec
      ⟨false, [⟨"Ana", 739266, 0, []⟩, ⟨"Luis", 739267, 0, []⟩]⟩
      739266).1 _).mpr (by simp)

/-- C6: weekly filtering matches on the explicit `Semana` column whenever the
table has one, and derives the ISO calendar week from the `Fecha` column only
when it does not — the explicit column takes precedence. -/
theorem filtrar_semanal_spec (df : Tabla) (semana : ℕ) :
    (df.hasSemana = true →
      (filtrar_por_periodo df (.semanal semana)).rows =
        df.rows.filter fun r => r.semana == semana) ∧
    (df.hasSemana = false →
      (filtrar_por_periodo df (.semanal semana)).rows =
        df.rows.filter fun r => isoWeek r.fecha == semana) := by
  constructor <;> intro h <;> unfold filtrar_por_periodo <;>
    rcases he : df.rows with _ | ⟨a, l⟩ <;> simp [he, h]

/-- Witness for C6: a row whose `Semana` value is `7` while the ISO week of
its date (2025-01-15, ordinal 739266) is `3`.  With the `Semana` column
present, filtering on week `7` keeps the row (explicit column precedence);
with it absent, the same filter instead uses the derived week and drops it. -/
theorem filtrar_semanal_spec_witness :
    (filtrar_por_periodo ⟨true, [⟨"Ana", 739266, 7, []⟩]⟩
        (.semanal 7)).rows = [⟨"Ana", 739266, 7, []⟩] ∧
    (filtrar_por_periodo ⟨false, [⟨"Ana", 739266, 7, []⟩]⟩
        (.semanal 7)).rows = [] := by
  constructor
  · rw [(filtrar_semanal_spec ⟨true, [⟨"Ana", 739266, 7, []⟩]⟩ 7).1 rfl]
    decide
  · rw [(filtrar_semanal_spec ⟨false, [⟨"Ana", 739266, 7, []⟩]⟩ 7).2 rfl]
    decide

end Dashboard

namespace Dashboard

/-- One row of the daily metrics table as the department dashboard reads it.
Counter values are meaningful only when the corresponding column is present
in the table. -/
structure RegistroDia where
  reclutador : String
  firmaron : ℤ
  contactos : ℤ
  entrevistas : ℤ
deriving DecidableEq

/-- The daily metrics DataFrame with the column-presence flags the
department dashboard checks before aggregating. -/
structure TablaDia where
  hasFirmaron : Bool
  hasContactos : Bool
  hasEntrevistas : Bool
  rows : List RegistroDia

/-- One row of the per-recruiter ranking; `none` models a counter column
absent from the aggregation result. -/
structure FilaRanking where
  reclutador : String
  firmaron : Option ℤ
  contactos : Option ℤ
  entrevistas : Option ℤ
deriving DecidableEq

/-- The ranking aggregation of `render_dashboard_departamento` —
src/streamlit_app.py:317-326: `columnas_agg` collects only the counter
columns present in the data; when none is present no ranking is built
(modelled as `[]`); otherwise rows are grouped by `Reclutador` and each
present column is summed, each absent column staying absent (`none`).
pandas emits one group row per distinct recruiter; group-key order plays no
role in the claim. -/
def agrupar_por_reclutador (t : TablaDia) : List FilaRanking :=
  if t.hasFirmaron = false ∧ t.hasContactos = false ∧ t.hasEntrevistas = false
  then []
  else
    ((t.rows.map fun r => r.reclutador).dedup).map fun rec =>
      { reclutador := rec
        firmaron :=
          if t.hasFirmaron then
            some (((t.rows.filter fun r => r.reclutador == rec).map
              fun r => r.firmaron).sum)
          else none
        contactos :=
          if t.hasContactos then
            some (((t.rows.filter fun r => r.reclutador == rec).map
              fun r => r.contactos).sum)
          else none
        entrevistas :=
          if t.hasEntrevistas then
            some (((t.rows.filter fun r => r.reclutador == rec).map
              fun r => r.entrevistas).sum)
          else none }

/-- C7: with at least one counter column present, aggregation by recruiter
yields exactly one row per distinct recruiter of the input; each present
counter column is summed exactly over that recruiter's rows, and each absent
counter column is absent from the output (`none`), never zero-filled. -/
theorem agrupar_por_reclutador_spec (t : TablaDia)
    (h : t.hasFirmaron = true ∨ t.hasContactos = true ∨
      t.hasEntrevistas = true) :
    ((agrupar_por_reclutador t).map fun f => f.reclutador) =
      (t.rows.map fun r => r.reclutador).dedup ∧
    ((agrupar_por_reclutador t).map fun f => f.reclutador).Nodup ∧
    (∀ f ∈ agrupar_por_reclutador t,
      f.firmaron =
        (if t.hasFirmaron then
          some (((t.rows.filter fun r => r.reclutador == f.reclutador).map
            fun r => r.firmaron).sum)
        else none) ∧
      f.contactos =
        (if t.hasContactos then
          some (((t.rows.filter fun r => r.reclutador == f.reclutador).map
            fun r => r.contactos).sum)
        else none) ∧
      f.entrevistas =
        (if t.hasEntrevistas then
          some (((t.rows.filter fun r => r.reclutador == f.reclutador).map
            fun r => r.entrevistas).sum)
        else none)) := by
  have h' : ¬(t.hasFirmaron = false ∧ t.hasContactos = false ∧
      t.hasEntrevistas = false) := by
    rcases h with h | h | h <;> simp [h]
  have hmap : ((agrupar_por_reclutador t).map fun f => f.reclutador) =
      (t.rows.map fun r => r.reclutador).dedup := by
    simp only [agrupar_por_reclutador, if_neg h', List.map_map]
    exact List.map_id _
  refine ⟨hmap, hmap ▸ List.nodup_dedup _, ?_⟩
  intro f hf
  rw [agrupar_por_reclutador, if_neg h', List.mem_map] at hf
  obtain ⟨rec, _, rfl⟩ := hf
  exact ⟨rfl, rfl, rfl⟩

/-- Witness for C7: two recruiters; `Firmaron` and `Contactos` present,
`Entrevistas` absent.  Ana's rows sum to `(5, 16)`, Luis's to `(1, 4)`, and
the absent column is `none` in both output rows (this embedding's `dedup`
emits Luis before Ana; pandas sorts group keys — the claim is
order-independent). -/
theorem agrupar_por_reclutador_spec_witness :
    ((agrupar_por_reclutador
        ⟨true, true, false,
          [⟨"Ana", 2, 10, 0⟩, ⟨"Luis", 1, 4, 0⟩, ⟨"Ana", 3, 6, 0⟩]⟩).map
      fun f => f.reclutador).Nodup ∧
    agrupar_por_reclutador
        ⟨true, true, false,
          [⟨"Ana", 2, 10, 0⟩, ⟨"Luis", 1, 4, 0⟩, ⟨"Ana", 3, 6, 0⟩]⟩ =
      [⟨"Luis", some 1, some 4, none⟩, ⟨"Ana", some 5, some 16, none⟩] := by
  constructor
  · exact (agrupar_por_reclutador_spec
      ⟨true, true, false,
        [⟨"Ana", 2, 10, 0⟩, ⟨"Luis", 1, 4, 0⟩, ⟨"Ana", 3, 6, 0⟩]⟩
      (Or.inl rfl)).2.1
  · decide

end Dashboard

namespace Dashboard

/-- One row of the `metas_semanales` goals table (the `Firmaron` goal is the
field the dashboards read). -/
structure FilaMeta where
  reclutador : String
  firmaron : ℚ
deriving DecidableEq

/-- The goals DataFrame with the column-presence flags the lookups check. -/
structure TablaMetas where
  hasReclutador : Bool
  hasFirmaron : Bool
  rows : List FilaMeta

/-- One row of the `config_dias_laborables` table. -/
structure FilaConfig where
  reclutador : String
  dias_generales : ℚ
deriving DecidableEq

/-- The working-days DataFrame with its column-presence flags. -/
structure TablaConfig where
  hasReclutador : Bool
  hasDias : Bool
  rows : List FilaConfig

/-- The weekly-goal lookup shared by the daily, weekly and monthly
dashboards — src/streamlit_app.py:480-486 (likewise 632-636 and 783-787):
start from the default `25`; when the goals table is non-empty, has the
`Reclutador` and `Firmaron` columns, and has a row for the recruiter, use
that row's `Firmaron` value (`.values[0]`, the first matching row). -/
def meta_semanal_de (metas : TablaMetas) (rec : String) : ℚ :=
  if ¬metas.rows.isEmpty ∧ metas.hasReclutador = true ∧
      metas.hasFirmaron = true then
    match metas.rows.filter fun r => r.reclutador == rec with
    | [] => 25
    | r :: _ => r.firmaron
  else 25

/-- The working-days lookup — src/streamlit_app.py:488-491: start from the
default `5`; when the config table is non-empty and has a `Reclutador`
column, and the recruiter's filtered rows are non-empty and the table has
the `Dias_Generales` column, use the first matching row's value. -/
def dias_laborables_de (config : TablaConfig) (rec : String) : ℚ :=
  if ¬config.rows.isEmpty ∧ config.hasReclutador = true then
    match config.rows.filter fun r => r.reclutador == rec with
    | [] => 5
    | r :: _ => if config.hasDias then r.dias_generales else 5
  else 5

/-- `meta_diaria = meta_semanal / dias_laborables` — src/streamlit_app.py:493. -/
def meta_diaria_de (metas : TablaMetas) (config : TablaConfig)
    (rec : String) : ℚ :=
  meta_semanal_de metas rec / dias_laborables_de config rec

theorem meta_semanal_de_no_row (metas : TablaMetas) (rec : String)
    (h : metas.rows.filter (fun r => r.reclutador == rec) = []) :
    meta_semanal_de metas rec = 25 := by
  unfold meta_semanal_de
  split
  · rw [h]
  · rfl

theorem meta_semanal_de_no_col (metas : TablaMetas) (rec : String)
    (h : metas.hasFirmaron = false) :
    meta_semanal_de metas rec = 25 := by
  unfold meta_semanal_de
  rw [if_neg]
  simp [h]

theorem dias_laborables_de_no_row (config : TablaConfig) (rec : String)
    (h : config.rows.filter (fun r => r.reclutador == rec) = []) :
    dias_laborables_de config rec = 5 := by
  unfold dias_laborables_de
  split
  · rw [h]
  · rfl

theorem dias_laborables_de_no_col (config : TablaConfig) (rec : String)
    (h : config.hasDias = false) :
    dias_laborables_de config rec = 5 := by
  unfold dias_laborables_de
  split
  · split
    · rfl
    · rw [if_neg (by simp [h])]
  · rfl

/-- C9: absent lookups do not fail but fall back to the defaults — weekly
goal `25` when there is no goal row for the recruiter or the goal column is
absent, working days `5` when there is no config row or the days column is
absent — and the daily goal is prorated as weekly goal over working days
from whatever values result. -/
theorem defaults_diario_spec (metas : TablaMetas) (config : TablaConfig)
    (rec : String) :
    (metas.rows.filter (fun r => r.reclutador == rec) = [] →
      meta_semanal_de metas rec = 25) ∧
    (metas.hasFirmaron = false → meta_semanal_de metas rec = 25) ∧
    (config.rows.filter (fun r => r.reclutador == rec) = [] →
      dias_laborables_de config rec = 5) ∧
    (config.hasDias = false → dias_laborables_de config rec = 5) ∧
    meta_diaria_de metas config rec =
      meta_semanal_de metas rec / dias_laborables_de config rec :=
  ⟨meta_semanal_de_no_row metas rec, meta_semanal_de_no_col metas rec,
   dias_laborables_de_no_row config rec, dias_laborables_de_no_col config rec,
   rfl⟩

/-- Witness for C9: with empty goal and config tables the lookups return the
defaults `25` and `5`, and the daily goal is `25 / 5 = 5`. -/
theorem defaults_diario_spec_witness :
    meta_semanal_de ⟨true, true, []⟩ "Ana" = 25 ∧
    dias_laborables_de ⟨true, true, []⟩ "Ana" = 5 ∧
    meta_diaria_de ⟨true, true, []⟩ ⟨true, true, []⟩ "Ana" = 5 := by
  have h := defaults_diario_spec ⟨true, true, []⟩ ⟨true, true, []⟩ "Ana"
  refine ⟨h.1 rfl, h.2.2.1 rfl, ?_⟩
  rw [h.2.2.2.2, h.1 rfl, h.2.2.1 rfl]
  norm_num

/-- `meta_mensual = meta_semanal * 4` — src/streamlit_app.py:789. -/
def meta_mensual_de (metas : TablaMetas) (rec : String) : ℚ :=
  meta_semanal_de metas rec * 4

/-- The monthly effectiveness KPI — src/streamlit_app.py:780-790:
`firmaron_semanas` lists the recruiter's weekly `Firmaron` values that fall
in the selected month; the KPI divides their sum by `meta_semanal * 4`. -/
def efectividad_mensual_de (firmaron_semanas : List ℚ) (metas : TablaMetas)
    (rec : String) : ℚ :=
  calcular_efectividad firmaron_semanas.sum (meta_mensual_de metas rec)

/-- C10: the monthly goal is always the weekly goal times the constant `4`,
whatever weekly data falls in the month (the goal does not depend on the
number of weeks present), and the default weekly goal when no goal row
exists is `25` (hence a default monthly goal of `100`). -/
theorem meta_mensual_spec (metas : TablaMetas) (rec : String)
    (firmaron_semanas : List ℚ) :
    meta_mensual_de metas rec = meta_semanal_de metas rec * 4 ∧
    efectividad_mensual_de firmaron_semanas metas rec =
      calcular_efectividad firmaron_semanas.sum
        (meta_semanal_de metas rec * 4) ∧
    (metas.rows.filter (fun r => r.reclutador == rec) = [] →
      meta_semanal_de metas rec = 25 ∧ meta_mensual_de metas rec = 100) := by
  refine ⟨rfl, rfl, fun h => ?_⟩
  have h25 := meta_semanal_de_no_row metas rec h
  refine ⟨h25, ?_⟩
  rw [meta_mensual_de, h25]
  norm_num

/-- Witness for C10: a goals table with only a row for Ana; for Luis (no
row) the weekly goal is `25` and the monthly goal `100`, independent of the
month's data `[10, 5]`. -/
theorem meta_mensual_spec_witness :
    meta_semanal_de ⟨true, true, [⟨"Ana", 30⟩]⟩ "Luis" = 25 ∧
    meta_mensual_de ⟨true, true, [⟨"Ana", 30⟩]⟩ "Luis" = 100 :=
  (meta_mensual_spec ⟨true, true, [⟨"Ana", 30⟩]⟩ "Luis" [10, 5]).2.2
    (by decide)

end Dashboard
